import Mathlib

/-!
Shallow embedding of `src/src/components/TwoVarGraph.jsx`: the coordinate
mapper, gesture classifier, shape path generator and history reducer of an
interactive two-variable graphing surface.  Pixel and value coordinates are
embedded as exact rationals (the source uses JS numbers); the shape path
generator, which samples a transcendental exponential, is embedded over ℝ.
-/

namespace TwoVarGraph

/-! ### Constants (source lines 3-16, 32-40) -/

def WIDTH : ℚ := 500
def HEIGHT : ℚ := 500
def MIN : ℚ := -10
def MAX : ℚ := 10
def PADDING : ℚ := 40
def centerX : ℚ := WIDTH / 2
def centerY : ℚ := HEIGHT / 2
def plotWidth : ℚ := WIDTH - 2 * PADDING
def plotHeight : ℚ := HEIGHT - 2 * PADDING
def scaleX : ℚ := plotWidth / (MAX - MIN)
def scaleY : ℚ := plotHeight / (MAX - MIN)

/-- Max span (in px) to treat gesture as a point: `scaleX * 0.9`. -/
def POINT_MAX_SPAN : ℚ := scaleX * (9 / 10)

def POINT_MIN_VERTICAL : ℚ := 12

/-! ### Coordinate mapper (source lines 18-30) -/

/-- Map value x in [MIN, MAX] to SVG x. -/
def valueToX (x : ℚ) : ℚ := centerX + x * scaleX

/-- Map value y in [MIN, MAX] to SVG y (SVG y increases downward). -/
def valueToY (y : ℚ) : ℚ := centerY - y * scaleY

/-- Map SVG x to value. -/
def xToValue (px : ℚ) : ℚ := (px - centerX) / scaleX

/-- Map SVG y to value. -/
def yToValue (py : ℚ) : ℚ := (centerY - py) / scaleY

/-- Clamp value to [MIN, MAX]. -/
def clamp (v : ℚ) : ℚ := max MIN (min MAX v)

/-- Round value to nearest integer and clamp.  JS `Math.round` rounds half
toward +∞, i.e. `Math.round v = ⌊v + 1/2⌋`. -/
def roundToTick (v : ℚ) : ℤ := ⌊clamp v + 1 / 2⌋

/-! ### Actions and history (source lines 38-40, 113-132, 417-448) -/

/-- A stored point `{x, y}`: a pair of JS numbers, embedded as rationals. -/
structure Pt where
  x : ℚ
  y : ℚ
deriving DecidableEq, Repr

/-- The closed enumeration of selectable curve shapes. -/
inductive Shape where
  | line
  | exponential
  | parabola
deriving DecidableEq, Repr

/-- Action tagged union for undo/redo: `{type: ACTION_SEGMENT, data: {shape,
points}}` or `{type: ACTION_EMPTY_CIRCLE, point}`. -/
inductive Action where
  | segment (shape : Shape) (points : List Pt)
  | emptyCircle (point : Pt)
deriving DecidableEq, Repr

/-- `true` exactly on `emptyCircle` actions. -/
def Action.isEmptyCircle : Action → Bool
  | .emptyCircle _ => true
  | .segment _ _ => false

/-- The component's history state: the `history` array and `historyIndex`. -/
structure HistState where
  history : List Action
  index : ℕ
deriving DecidableEq, Repr

/-- Initial state: empty history, index 0. -/
def initState : HistState := ⟨[], 0⟩

/-- `pushHistory` (lines 128-132): truncate at the cursor, append, advance. -/
def pushHistory (a : Action) (s : HistState) : HistState :=
  ⟨s.history.take s.index ++ [a], s.index + 1⟩

/-- Undo button handler (line 419): `setHistoryIndex(i => Math.max(0, i-1))`;
ℕ subtraction is exactly `max 0 (i - 1)`. -/
def undoOp (s : HistState) : HistState := ⟨s.history, s.index - 1⟩

/-- Redo button handler (line 427):
`setHistoryIndex(i => Math.min(history.length, i+1))`. -/
def redoOp (s : HistState) : HistState :=
  ⟨s.history, min s.history.length (s.index + 1)⟩

/-- Reset button handler (lines 435-438): clear history, cursor to 0. -/
def resetOp (_ : HistState) : HistState := ⟨[], 0⟩

/-! ### Deriving visible state (source lines 75-94).
The legacy `Array.isArray(data)` branch is unreachable for actions built by
this component (every committed segment carries `{shape, points}`), and the
embedded `Action` type has no legacy form, so it is not modelled.  The
dedup key `` `${x},${y}` `` is string equality of the two numbers, which for
distinct number pairs is distinct strings, i.e. `Pt` equality. -/

structure VisState where
  segments : List (Shape × List Pt)
  emptyCirclePoints : List Pt
deriving DecidableEq, Repr

/-- One step of the `for (const action of historySlice)` loop body. -/
def reduceStep (st : VisState) : Action → VisState
  | .segment sh pts => ⟨st.segments ++ [(sh, pts)], st.emptyCirclePoints⟩
  | .emptyCircle p =>
      if p ∈ st.emptyCirclePoints then st
      else ⟨st.segments, st.emptyCirclePoints ++ [p]⟩

/-- `reduceHistoryToState` (lines 75-94): fold the slice into visible state. -/
def reduceHistoryToState (historySlice : List Action) : VisState :=
  historySlice.foldl reduceStep ⟨[], []⟩

/-! ### Gesture capture and classification (source lines 146-215) -/

/-- `startDrawing`: the path becomes the single pointer-down point. -/
def startDrawing (pt : Pt) : List Pt := [pt]

/-- `moveDrawing` path update (lines 162-168): empty path is kept, a move to
the last recorded pixel is dropped, otherwise the path becomes
`[anchor, pt]` (anchor at first point; only the end follows the pointer). -/
def moveDrawing (pt : Pt) : List Pt → List Pt
  | [] => []
  | p0 :: rest =>
      if (p0 :: rest).getLast (List.cons_ne_nil p0 rest) = pt then p0 :: rest
      else [p0, pt]

/-- The marker test of `endDrawing` (lines 187-190):
`segmentLength < POINT_MAX_SPAN && spanY >= POINT_MIN_VERTICAL`, where
`segmentLength = hypot dx dy` and `spanY = maxY - minY = |dy|`.  Since both
sides of the first comparison are nonnegative, `hypot dx dy < c` is embedded
as the equivalent exact comparison `dx*dx + dy*dy < c*c`. -/
def markerCond (p0 p1 : Pt) : Prop :=
  (p1.x - p0.x) * (p1.x - p0.x) + (p1.y - p0.y) * (p1.y - p0.y)
      < POINT_MAX_SPAN * POINT_MAX_SPAN
    ∧ max p0.y p1.y - min p0.y p1.y ≥ POINT_MIN_VERTICAL

instance (p0 p1 : Pt) : Decidable (markerCond p0 p1) :=
  inferInstanceAs (Decidable (_ ∧ _))

/-- Lines 199-209: snap one endpoint to the grid in value space, then map
back to surface space to get the canonical snapped pixel point. -/
def snapPt (p : Pt) : Pt :=
  ⟨valueToX (roundToTick (xToValue p.x)), valueToY (roundToTick (yToValue p.y))⟩

/-- `endDrawing` (lines 174-215): classify the recorded path `prev`, commit
at most one action, and return the new history state with the new path.
`sel` is the `selectedShape` state (`none` when the tool was toggled off);
the committed shape is `selectedShape || 'line'`. -/
def endDrawing (sel : Option Shape) (prev : List Pt) (s : HistState) :
    HistState × List Pt :=
  match prev with
  | p0 :: p1 :: _ =>
      if markerCond p0 p1 then
        -- Short drag with vertical motion → empty circle at snapped center
        let vx := roundToTick (xToValue ((p0.x + p1.x) / 2))
        let vy := roundToTick (yToValue ((p0.y + p1.y) / 2))
        (pushHistory (.emptyCircle ⟨(vx : ℚ), (vy : ℚ)⟩) s, [])
      else
        -- Segment: snap anchor and release point to grid
        let startPt := snapPt p0
        let endPt := snapPt p1
        if startPt = endPt then (s, [startPt])
        else
          (pushHistory (.segment (sel.getD .line) [startPt, endPt]) s, [])
  | _ => (s, prev)

/-! ### Shape path generator (source lines 42-73), over ℝ.
The source builds an SVG `d` string; the embedding keeps the same geometric
content as structured data. -/

/-- Structured content of the generated SVG path string. -/
inductive SvgPath where
  | lineSeg (p0 p1 : ℝ × ℝ)
  | polyline (pts : List (ℝ × ℝ))
  | doubleQuad (start c1 vertex c2 stop : ℝ × ℝ)

/-- Sample `i` of 20 of the exponential curve (lines 52-61): `t = i/20`,
`x = lerp(x1, x2, t)`, `y = y1 + yNorm * (y2 - y1)` with
`yNorm = (1 - e^(-k t)) / (1 - e^(-k))`, `k = 4`. -/
noncomputable def expSample (startPt endPt : ℝ × ℝ) (i : ℕ) : ℝ × ℝ :=
  let t : ℝ := (i : ℝ) / 20
  let x := startPt.1 + t * (endPt.1 - startPt.1)
  let yNorm := (1 - Real.exp (-4 * t)) / (1 - Real.exp (-4))
  (x, startPt.2 + yNorm * (endPt.2 - startPt.2))

/-- The 21 samples `i = 0..20` of the exponential curve. -/
noncomputable def expSamples (startPt endPt : ℝ × ℝ) : List (ℝ × ℝ) :=
  (List.range 21).map (expSample startPt endPt)

/-- `getPathD` (lines 42-73).  `shape = none` models the falsy `!shape`
branch, which draws a straight line; the closed `Shape` enumeration makes
the final fallback `return` unreachable. -/
noncomputable def getPathD (shape : Option Shape) (startPt endPt : ℝ × ℝ) :
    SvgPath :=
  match shape with
  | none => .lineSeg startPt endPt
  | some .line => .lineSeg startPt endPt
  | some .exponential => .polyline (expSamples startPt endPt)
  | some .parabola =>
      -- Vertex at (x1,y1), one arm to (x2,y2); other arm mirrors across
      -- vertical through vertex
      let xv := startPt.1
      let yv := startPt.2
      let xMirror := 2 * xv - endPt.1
      let cRight := (xv + endPt.1) / 2
      let cLeft := (3 * xv - endPt.1) / 2
      .doubleQuad (xMirror, endPt.2) (cLeft, yv) (xv, yv) (cRight, yv)
        (endPt.1, endPt.2)

/-! ### Helper lemmas -/

lemma MIN_eq : MIN = -10 := rfl

lemma MAX_eq : MAX = 10 := rfl

lemma scaleX_eq : scaleX = 21 := by
  norm_num [scaleX, plotWidth, WIDTH, PADDING, MAX, MIN]

lemma scaleY_eq : scaleY = 21 := by
  norm_num [scaleY, plotHeight, HEIGHT, PADDING, MAX, MIN]

lemma centerX_eq : centerX = 250 := by norm_num [centerX, WIDTH]

lemma centerY_eq : centerY = 250 := by norm_num [centerY, HEIGHT]

lemma POINT_MAX_SPAN_eq : POINT_MAX_SPAN = 189 / 10 := by
  norm_num [POINT_MAX_SPAN, scaleX_eq]

lemma clamp_of_mem {v : ℚ} (h1 : MIN ≤ v) (h2 : v ≤ MAX) : clamp v = v := by
  rw [clamp, min_eq_right h2, max_eq_right h1]

lemma roundToTick_eq {v : ℚ} {n : ℤ} (h1 : MIN ≤ v) (h2 : v ≤ MAX)
    (h3 : (n : ℚ) ≤ v + 1 / 2) (h4 : v + 1 / 2 < n + 1) : roundToTick v = n := by
  rw [roundToTick, clamp_of_mem h1 h2]
  exact Int.floor_eq_iff.mpr ⟨h3, h4⟩

lemma clamp_mem (v : ℚ) : MIN ≤ clamp v ∧ clamp v ≤ MAX := by
  refine ⟨le_max_left _ _, max_le ?_ (min_le_left _ _)⟩
  rw [MIN_eq, MAX_eq]; norm_num

lemma roundToTick_bounds (v : ℚ) :
    -10 ≤ roundToTick v ∧ roundToTick v ≤ 10 := by
  obtain ⟨h1, h2⟩ := clamp_mem v
  rw [MIN_eq] at h1
  rw [MAX_eq] at h2
  constructor
  · have h : ⌊(-10 : ℚ) + 1 / 2⌋ = (-10 : ℤ) := by
      rw [Int.floor_eq_iff]; norm_num
    rw [roundToTick, ← h]
    exact Int.floor_le_floor (by linarith)
  · have h : ⌊(10 : ℚ) + 1 / 2⌋ = (10 : ℤ) := by
      rw [Int.floor_eq_iff]; norm_num
    rw [roundToTick, ← h]
    exact Int.floor_le_floor (by linarith)

/-! ### C7: round-trip coordinate mapping -/

/-- C7: for every integer grid value v in [-10, 10], mapping value to surface
pixel and back returns v: `xToValue (valueToX v) = v` and
`yToValue (valueToY v) = v` (exactly, in the exact-rational embedding). -/
theorem c7_round_trip (v : ℤ) (h1 : -10 ≤ v) (h2 : v ≤ 10) :
    xToValue (valueToX (v : ℚ)) = (v : ℚ)
      ∧ yToValue (valueToY (v : ℚ)) = (v : ℚ) := by
  constructor
  · rw [xToValue, valueToX, scaleX_eq]; ring
  · rw [yToValue, valueToY, scaleY_eq]; ring

/-- Witness for C7 at the grid value v = 7. -/
theorem c7_round_trip_witness :
    xToValue (valueToX ((7 : ℤ) : ℚ)) = ((7 : ℤ) : ℚ)
      ∧ yToValue (valueToY ((7 : ℤ) : ℚ)) = ((7 : ℤ) : ℚ) :=
  c7_round_trip 7 (by decide) (by decide)

/-! ### C8: parabola mirroring -/

/-- C8: for the parabola shape the generated path starts at the mirrored arm
endpoint `(2*x0 - x1, y1)`, the reflection of the free arm endpoint through
the vertical line at the vertex; for vertex (0,0) and arm endpoint (4,2) the
mirrored arm endpoint equals (-4,2). -/
theorem c8_parabola_mirror :
    (∀ p0 p1 : ℝ × ℝ,
      getPathD (some .parabola) p0 p1
        = .doubleQuad (2 * p0.1 - p1.1, p1.2) ((3 * p0.1 - p1.1) / 2, p0.2)
            (p0.1, p0.2) ((p0.1 + p1.1) / 2, p0.2) (p1.1, p1.2))
    ∧ getPathD (some .parabola) (0, 0) (4, 2)
        = .doubleQuad (-4, 2) (-2, 0) (0, 0) (2, 0) (4, 2) := by
  refine ⟨fun p0 p1 => rfl, ?_⟩
  show SvgPath.doubleQuad (2 * (0:ℝ) - 4, (2:ℝ)) ((3 * (0:ℝ) - 4) / 2, (0:ℝ))
      ((0:ℝ), (0:ℝ)) (((0:ℝ) + 4) / 2, (0:ℝ)) ((4:ℝ), (2:ℝ)) = _
  norm_num

/-! ### C9: exponential curve endpoints -/

/-- C9: the exponential path is the polyline of the 21 samples (at least 20)
of `y(t) = y0 + ((1 - e^(-4 t)) / (1 - e^(-4))) * (y1 - y0)` with x linearly
interpolated; its first sample equals p0 and its last sample equals p1. -/
theorem c9_exponential_endpoints (p0 p1 : ℝ × ℝ) :
    getPathD (some .exponential) p0 p1 = .polyline (expSamples p0 p1)
    ∧ 20 ≤ (expSamples p0 p1).length
    ∧ (expSamples p0 p1)[0]? = some p0
    ∧ (expSamples p0 p1)[20]? = some p1 := by
  have hlen : (expSamples p0 p1).length = 21 := by
    simp [expSamples]
  have h0 : expSample p0 p1 0 = p0 := by
    simp [expSample]
  have hd : 1 - Real.exp (-4) ≠ 0 := by
    have : Real.exp (-4) < 1 := Real.exp_lt_one_iff.mpr (by norm_num)
    linarith
  have h20 : expSample p0 p1 20 = p1 := by
    simp only [expSample]
    have ht : ((20 : ℕ) : ℝ) / 20 = 1 := by norm_num
    rw [ht]
    have he : (-4 : ℝ) * 1 = -4 := by ring
    rw [he, div_self hd]
    rw [Prod.ext_iff]
    constructor <;> simp
  refine ⟨rfl, by rw [hlen]; norm_num, ?_, ?_⟩
  · simp [expSamples, List.getElem?_map, List.getElem?_range, h0]
  · simp [expSamples, List.getElem?_map, List.getElem?_range, h20]

/-! ### C3: truncation law -/

/-- C3: committing when the cursor is behind the end discards the redo tail:
from empty history, commit A, commit B, undo, commit C yields history [A, C]
with cursor 2, and the derived visible state is that of [A, C], containing A
and C but never B. -/
theorem c3_truncation (A B C : Action) (hBA : B ≠ A) (hBC : B ≠ C) :
    (pushHistory C (undoOp (pushHistory B (pushHistory A initState)))).history
        = [A, C]
    ∧ (pushHistory C (undoOp (pushHistory B (pushHistory A initState)))).index
        = 2
    ∧ A ∈ [A, C] ∧ C ∈ [A, C] ∧ B ∉ [A, C]
    ∧ reduceHistoryToState (([A, C] : List Action).take 2)
        = reduceHistoryToState [A, C] := by
  refine ⟨?_, ?_, by simp, by simp, by simp [hBA, hBC], by simp⟩
  · simp [pushHistory, undoOp, initState]
  · simp [pushHistory, undoOp, initState]

/-- Witness for C3 with three pairwise distinct concrete actions. -/
theorem c3_truncation_witness :
    (pushHistory (.emptyCircle ⟨2, 0⟩)
        (undoOp (pushHistory (.emptyCircle ⟨1, 0⟩)
          (pushHistory (.emptyCircle ⟨0, 0⟩) initState)))).history
        = [.emptyCircle ⟨0, 0⟩, .emptyCircle ⟨2, 0⟩]
    ∧ (pushHistory (.emptyCircle ⟨2, 0⟩)
        (undoOp (pushHistory (.emptyCircle ⟨1, 0⟩)
          (pushHistory (.emptyCircle ⟨0, 0⟩) initState)))).index = 2
    ∧ Action.emptyCircle ⟨0, 0⟩ ∈ [Action.emptyCircle ⟨0, 0⟩, .emptyCircle ⟨2, 0⟩]
    ∧ Action.emptyCircle ⟨2, 0⟩ ∈ [Action.emptyCircle ⟨0, 0⟩, .emptyCircle ⟨2, 0⟩]
    ∧ Action.emptyCircle ⟨1, 0⟩ ∉ [Action.emptyCircle ⟨0, 0⟩, .emptyCircle ⟨2, 0⟩]
    ∧ reduceHistoryToState
          (([Action.emptyCircle ⟨0, 0⟩, .emptyCircle ⟨2, 0⟩] : List Action).take 2)
        = reduceHistoryToState [.emptyCircle ⟨0, 0⟩, .emptyCircle ⟨2, 0⟩] :=
  c3_truncation (.emptyCircle ⟨0, 0⟩) (.emptyCircle ⟨1, 0⟩) (.emptyCircle ⟨2, 0⟩)
    (by simp) (by simp)

/-! ### C4: history cursor invariant -/

/-- One user-level history operation. -/
inductive HistOp where
  | commit (a : Action)
  | undo
  | redo
  | reset

/-- Dispatch one operation to the corresponding handler. -/
def applyOp (s : HistState) : HistOp → HistState
  | .commit a => pushHistory a s
  | .undo => undoOp s
  | .redo => redoOp s
  | .reset => resetOp s

/-- The cursor invariant `0 ≤ index ≤ length` (the lower bound is inherent
in ℕ). -/
def cursorInv (s : HistState) : Prop := s.index ≤ s.history.length

lemma cursorInv_applyOp {s : HistState} (h : cursorInv s) (op : HistOp) :
    cursorInv (applyOp s op) := by
  cases op with
  | commit a =>
      simp only [applyOp, pushHistory, cursorInv, List.length_append,
        List.length_take]
      rw [min_eq_left h]
      simp
  | undo => exact le_trans (Nat.sub_le _ _) h
  | redo => exact min_le_left _ _
  | reset => exact Nat.le_refl 0

lemma cursorInv_foldl (ops : List HistOp) :
    ∀ s : HistState, cursorInv s → cursorInv (ops.foldl applyOp s) := by
  induction ops with
  | nil => exact fun s h => h
  | cons op rest ih => exact fun s h => ih _ (cursorInv_applyOp h op)

/-- C4: after any finite sequence of Commit/Undo/Redo/Reset from the initial
empty history, `0 ≤ cursor ≤ length` holds; Undo at cursor 0 is a no-op,
Redo at cursor = length is a no-op, and Reset gives length 0 and cursor 0. -/
theorem c4_cursor_invariant :
    (∀ h : List Action, undoOp ⟨h, 0⟩ = ⟨h, 0⟩)
    ∧ (∀ h : List Action, redoOp ⟨h, h.length⟩ = ⟨h, h.length⟩)
    ∧ (∀ s : HistState, resetOp s = ⟨[], 0⟩)
    ∧ ∀ ops : List HistOp, (ops.foldl applyOp initState).index
        ≤ (ops.foldl applyOp initState).history.length := by
  refine ⟨fun h => rfl, fun h => ?_, fun s => rfl, fun ops => ?_⟩
  · simp [redoOp]
  · exact cursorInv_foldl ops initState (Nat.le_refl 0)

/-! ### C5: first-wins marker deduplication -/

lemma markers_foldl (l : List Action) :
    ∀ st : VisState, ∃ extra,
      (l.foldl reduceStep st).emptyCirclePoints = st.emptyCirclePoints ++ extra
      ∧ (∀ p ∈ extra, p ∉ st.emptyCirclePoints)
      ∧ extra.Nodup
      ∧ (∀ p ∈ extra, Action.emptyCircle p ∈ l)
      ∧ (∀ p, Action.emptyCircle p ∈ l → p ∈ st.emptyCirclePoints ++ extra) := by
  induction l with
  | nil => exact fun st => ⟨[], by simp⟩
  | cons a l ih =>
      intro st
      cases a with
      | segment sh pts =>
          obtain ⟨extra, he, h1, h2, h3, h4⟩ := ih ⟨st.segments ++ [(sh, pts)],
            st.emptyCirclePoints⟩
          exact ⟨extra, he, h1, h2, fun p hp => List.mem_cons_of_mem _ (h3 p hp),
            fun p hp => h4 p (by simpa using hp)⟩
      | emptyCircle q =>
          by_cases hq : q ∈ st.emptyCirclePoints
          · obtain ⟨extra, he, h1, h2, h3, h4⟩ := ih st
            refine ⟨extra, ?_, h1, h2,
              fun p hp => List.mem_cons_of_mem _ (h3 p hp), ?_⟩
            · simpa [List.foldl_cons, reduceStep, hq] using he
            · intro p hp
              rcases List.mem_cons.mp hp with h | h
              · exact List.mem_append_left _ (by
                  rw [Action.emptyCircle.injEq] at h
                  rw [h]; exact hq)
              · exact h4 p h
          · obtain ⟨extra, he, h1, h2, h3, h4⟩ :=
              ih ⟨st.segments, st.emptyCirclePoints ++ [q]⟩
            have hq' : q ∉ extra := fun hmem => (h1 q hmem) (by simp)
            refine ⟨q :: extra, ?_, ?_, List.nodup_cons.mpr ⟨hq', h2⟩, ?_, ?_⟩
            · simpa [List.foldl_cons, reduceStep, hq] using he
            · intro p hp
              rcases List.mem_cons.mp hp with h | h
              · rw [h]; exact hq
              · intro hmem
                exact (h1 p h) (List.mem_append_left _ hmem)
            · intro p hp
              rcases List.mem_cons.mp hp with h | h
              · rw [h]; exact List.mem_cons_self _ _
              · exact List.mem_cons_of_mem _ (h3 p h)
            · intro p hp
              rcases List.mem_cons.mp hp with h | h
              · rw [Action.emptyCircle.injEq] at h
                rw [h]; simp
              · have := h4 p h
                rcases List.mem_append.mp this with h' | h'
                · rcases List.mem_append.mp h' with h'' | h''
                  · exact List.mem_append_left _ h''
                  · exact List.mem_append_right _ (by
                      simpa using Or.inl (by simpa using h''))
                · exact List.mem_append_right _ (List.mem_cons_of_mem _ h')

/-- C5: in any history slice whose first EmptyCircle at p is followed by at
least one more EmptyCircle at the same p, the derived visible state has
exactly one marker at p, placed where the first occurrence fell (right after
the markers contributed by the prefix before it, in display order), and a
further duplicate commit leaves the derived state unchanged (dropped, not
overwritten). -/
theorem c5_marker_dedup (u v : List Action) (p : Pt)
    (hfirst : Action.emptyCircle p ∉ u) (hdup : Action.emptyCircle p ∈ v) :
    (reduceHistoryToState (u ++ .emptyCircle p :: v)).emptyCirclePoints.count p
        = 1
    ∧ (∃ rest,
        (reduceHistoryToState (u ++ .emptyCircle p :: v)).emptyCirclePoints
          = (reduceHistoryToState u).emptyCirclePoints ++ p :: rest
        ∧ p ∉ (reduceHistoryToState u).emptyCirclePoints ∧ p ∉ rest)
    ∧ reduceHistoryToState ((u ++ .emptyCircle p :: v) ++ [.emptyCircle p])
        = reduceHistoryToState (u ++ .emptyCircle p :: v) := by
  classical
  -- the state after folding the prefix u
  obtain ⟨eu, heu, _, _, hu3, _⟩ := markers_foldl u ⟨[], []⟩
  have hpu : p ∉ (reduceHistoryToState u).emptyCirclePoints := by
    rw [reduceHistoryToState, heu]
    simp only [List.nil_append]
    intro hmem
    exact hfirst (hu3 p hmem)
  -- fold through the first occurrence of p
  have hsplit : reduceHistoryToState (u ++ .emptyCircle p :: v)
      = v.foldl reduceStep ⟨(u.foldl reduceStep ⟨[], []⟩).segments,
          (u.foldl reduceStep ⟨[], []⟩).emptyCirclePoints ++ [p]⟩ := by
    rw [reduceHistoryToState, List.foldl_append, List.foldl_cons]
    have hpu' : p ∉ (u.foldl reduceStep ⟨[], []⟩).emptyCirclePoints := hpu
    simp only [reduceStep, if_neg hpu']
  obtain ⟨ev, hev, hv1, hv2, _, _⟩ :=
    markers_foldl v ⟨(u.foldl reduceStep ⟨[], []⟩).segments,
      (u.foldl reduceStep ⟨[], []⟩).emptyCirclePoints ++ [p]⟩
  have hpev : p ∉ ev := fun hmem => (hv1 p hmem) (by simp)
  have hmarkers :
      (reduceHistoryToState (u ++ .emptyCircle p :: v)).emptyCirclePoints
        = (reduceHistoryToState u).emptyCirclePoints ++ p :: ev := by
    rw [hsplit, hev, reduceHistoryToState, List.append_assoc]
    simp
  refine ⟨?_, ⟨ev, hmarkers, hpu, hpev⟩, ?_⟩
  · rw [hmarkers]
    rw [List.count_append, List.count_cons]
    rw [List.count_eq_zero.mpr hpu, List.count_eq_zero.mpr hpev]
    simp
  · have hpfinal :
        p ∈ (reduceHistoryToState (u ++ .emptyCircle p :: v)).emptyCirclePoints :=
      by rw [hmarkers]; simp
    rw [reduceHistoryToState, List.foldl_append, List.foldl_cons,
      List.foldl_nil]
    show reduceStep (reduceHistoryToState (u ++ .emptyCircle p :: v)) _ = _
    simp only [reduceStep, if_pos hpfinal]

/-- Witness for C5: two EmptyCircle commits at (1,2), nothing else. -/
theorem c5_marker_dedup_witness :
    (reduceHistoryToState
        ([] ++ .emptyCircle ⟨1, 2⟩ :: [.emptyCircle ⟨1, 2⟩])).emptyCirclePoints.count
        ⟨1, 2⟩ = 1
    ∧ (∃ rest,
        (reduceHistoryToState
            ([] ++ .emptyCircle ⟨1, 2⟩ :: [.emptyCircle ⟨1, 2⟩])).emptyCirclePoints
          = (reduceHistoryToState []).emptyCirclePoints ++ (⟨1, 2⟩ : Pt) :: rest
        ∧ (⟨1, 2⟩ : Pt) ∉ (reduceHistoryToState []).emptyCirclePoints
        ∧ (⟨1, 2⟩ : Pt) ∉ rest)
    ∧ reduceHistoryToState
          (([] ++ .emptyCircle ⟨1, 2⟩ :: [.emptyCircle ⟨1, 2⟩])
            ++ [.emptyCircle ⟨1, 2⟩])
        = reduceHistoryToState ([] ++ .emptyCircle ⟨1, 2⟩ :: [.emptyCircle ⟨1, 2⟩]) :=
  c5_marker_dedup [] [.emptyCircle ⟨1, 2⟩] ⟨1, 2⟩ (List.not_mem_nil _)
    (List.mem_singleton.mpr rfl)

/-! ### Branch lemmas for `endDrawing` and concrete evaluations -/

lemma xToValue_eq (px : ℚ) : xToValue px = (px - 250) / 21 := by
  rw [xToValue, centerX_eq, scaleX_eq]

lemma yToValue_eq (py : ℚ) : yToValue py = (250 - py) / 21 := by
  rw [yToValue, centerY_eq, scaleY_eq]

lemma valueToX_eq (x : ℚ) : valueToX x = 250 + x * 21 := by
  rw [valueToX, centerX_eq, scaleX_eq]

lemma valueToY_eq (y : ℚ) : valueToY y = 250 - y * 21 := by
  rw [valueToY, centerY_eq, scaleY_eq]

lemma endDrawing_marker (sel : Option Shape) (p0 p1 : Pt) (rest : List Pt)
    (s : HistState) (h : markerCond p0 p1) :
    endDrawing sel (p0 :: p1 :: rest) s
      = (pushHistory (.emptyCircle
          ⟨(roundToTick (xToValue ((p0.x + p1.x) / 2)) : ℚ),
            (roundToTick (yToValue ((p0.y + p1.y) / 2)) : ℚ)⟩) s, []) := by
  simp [endDrawing, h]

lemma endDrawing_segment (sel : Option Shape) (p0 p1 : Pt) (rest : List Pt)
    (s : HistState) (h : ¬ markerCond p0 p1) (hne : snapPt p0 ≠ snapPt p1) :
    endDrawing sel (p0 :: p1 :: rest) s
      = (pushHistory (.segment (sel.getD .line) [snapPt p0, snapPt p1]) s,
          []) := by
  simp [endDrawing, h, hne]

lemma endDrawing_degenerate (sel : Option Shape) (p0 p1 : Pt) (rest : List Pt)
    (s : HistState) (h : ¬ markerCond p0 p1) (heq : snapPt p0 = snapPt p1) :
    endDrawing sel (p0 :: p1 :: rest) s = (s, [snapPt p0]) := by
  simp [endDrawing, h, heq]

lemma markerCond_255_265 : markerCond ⟨250, 250⟩ ⟨255, 265⟩ := by
  norm_num [markerCond, POINT_MAX_SPAN_eq, POINT_MIN_VERTICAL]

lemma not_markerCond_255_270 : ¬ markerCond ⟨250, 250⟩ ⟨255, 270⟩ := by
  norm_num [markerCond, POINT_MAX_SPAN_eq, POINT_MIN_VERTICAL]

lemma not_markerCond_355_250 : ¬ markerCond ⟨250, 250⟩ ⟨355, 250⟩ := by
  norm_num [markerCond, POINT_MAX_SPAN_eq, POINT_MIN_VERTICAL]

lemma not_markerCond_254_253 : ¬ markerCond ⟨250, 250⟩ ⟨254, 253⟩ := by
  norm_num [markerCond, POINT_MAX_SPAN_eq, POINT_MIN_VERTICAL]

lemma snapPt_250_250 : snapPt ⟨250, 250⟩ = ⟨250, 250⟩ := by
  have hx : roundToTick (xToValue 250) = 0 := by
    rw [xToValue_eq]; apply roundToTick_eq <;> norm_num [MIN, MAX]
  have hy : roundToTick (yToValue 250) = 0 := by
    rw [yToValue_eq]; apply roundToTick_eq <;> norm_num [MIN, MAX]
  rw [snapPt]
  simp only at hx hy ⊢
  rw [hx, hy, valueToX_eq, valueToY_eq]
  norm_num

lemma snapPt_355_250 : snapPt ⟨355, 250⟩ = ⟨355, 250⟩ := by
  have hx : roundToTick (xToValue 355) = 5 := by
    rw [xToValue_eq]; apply roundToTick_eq <;> norm_num [MIN, MAX]
  have hy : roundToTick (yToValue 250) = 0 := by
    rw [yToValue_eq]; apply roundToTick_eq <;> norm_num [MIN, MAX]
  rw [snapPt]
  simp only at hx hy ⊢
  rw [hx, hy, valueToX_eq, valueToY_eq]
  norm_num

lemma snapPt_255_270 : snapPt ⟨255, 270⟩ = ⟨250, 271⟩ := by
  have hx : roundToTick (xToValue 255) = 0 := by
    rw [xToValue_eq]; apply roundToTick_eq <;> norm_num [MIN, MAX]
  have hy : roundToTick (yToValue 270) = -1 := by
    rw [yToValue_eq]; apply roundToTick_eq <;> norm_num [MIN, MAX]
  rw [snapPt]
  simp only at hx hy ⊢
  rw [hx, hy, valueToX_eq, valueToY_eq]
  norm_num

lemma snapPt_254_253 : snapPt ⟨254, 253⟩ = ⟨250, 250⟩ := by
  have hx : roundToTick (xToValue 254) = 0 := by
    rw [xToValue_eq]; apply roundToTick_eq <;> norm_num [MIN, MAX]
  have hy : roundToTick (yToValue 253) = 0 := by
    rw [yToValue_eq]; apply roundToTick_eq <;> norm_num [MIN, MAX]
  rw [snapPt]
  simp only at hx hy ⊢
  rw [hx, hy, valueToX_eq, valueToY_eq]
  norm_num

lemma snapPt_ne_355 : snapPt ⟨250, 250⟩ ≠ snapPt ⟨355, 250⟩ := by
  rw [snapPt_250_250, snapPt_355_250]
  simp only [ne_eq, Pt.mk.injEq, not_and]
  intro h
  norm_num at h

lemma snapPt_ne_270 : snapPt ⟨250, 250⟩ ≠ snapPt ⟨255, 270⟩ := by
  rw [snapPt_250_250, snapPt_255_270]
  simp only [ne_eq, Pt.mk.injEq, not_and]
  intro h
  norm_num

lemma snapPt_eq_254_253 : snapPt ⟨250, 250⟩ = snapPt ⟨254, 253⟩ := by
  rw [snapPt_250_250, snapPt_254_253]

/-! ### C1: coordinate space of committed points -/

/-- C1 (counterexample): a drag from pixel (250,250) to (355,250) commits a
Segment whose stored endpoint has x = 355, which is not in [-10, 10]:
committed segment points are snapped pixel coordinates, not value-space
coordinates. -/
theorem c1_counterexample :
    (endDrawing none [⟨250, 250⟩, ⟨355, 250⟩] initState).1.history
        = [.segment .line [⟨250, 250⟩, ⟨355, 250⟩]]
    ∧ ¬ ((355 : ℚ) ≤ 10) := by
  constructor
  · rw [show ([⟨250, 250⟩, ⟨355, 250⟩] : List Pt)
        = (⟨250, 250⟩ : Pt) :: (⟨355, 250⟩ : Pt) :: [] from rfl,
      endDrawing_segment none _ _ _ _ not_markerCond_355_250 snapPt_ne_355,
      snapPt_250_250, snapPt_355_250]
    rfl
  · norm_num

/-- C1 (amended): a committed EmptyCircle stores a value-space point whose
coordinates are integers in [-10, 10]; a committed Segment stores the
snapped *pixel* images `(valueToX a, valueToY b)` of integers a, b in
[-10, 10], so the geometry is recomputable from the snapped grid values. -/
theorem c1_amended (sel : Option Shape) (p0 p1 : Pt) (rest : List Pt)
    (s : HistState) :
    (markerCond p0 p1 →
      (-10 ≤ roundToTick (xToValue ((p0.x + p1.x) / 2))
        ∧ roundToTick (xToValue ((p0.x + p1.x) / 2)) ≤ 10)
      ∧ (-10 ≤ roundToTick (yToValue ((p0.y + p1.y) / 2))
        ∧ roundToTick (yToValue ((p0.y + p1.y) / 2)) ≤ 10)
      ∧ (endDrawing sel (p0 :: p1 :: rest) s).1
          = pushHistory (.emptyCircle
              ⟨(roundToTick (xToValue ((p0.x + p1.x) / 2)) : ℚ),
                (roundToTick (yToValue ((p0.y + p1.y) / 2)) : ℚ)⟩) s)
    ∧ (¬ markerCond p0 p1 → snapPt p0 ≠ snapPt p1 →
      (-10 ≤ roundToTick (xToValue p0.x) ∧ roundToTick (xToValue p0.x) ≤ 10)
      ∧ (-10 ≤ roundToTick (yToValue p0.y) ∧ roundToTick (yToValue p0.y) ≤ 10)
      ∧ (-10 ≤ roundToTick (xToValue p1.x) ∧ roundToTick (xToValue p1.x) ≤ 10)
      ∧ (-10 ≤ roundToTick (yToValue p1.y) ∧ roundToTick (yToValue p1.y) ≤ 10)
      ∧ (endDrawing sel (p0 :: p1 :: rest) s).1
          = pushHistory (.segment (sel.getD .line)
              [⟨valueToX (roundToTick (xToValue p0.x) : ℚ),
                 valueToY (roundToTick (yToValue p0.y) : ℚ)⟩,
               ⟨valueToX (roundToTick (xToValue p1.x) : ℚ),
                 valueToY (roundToTick (yToValue p1.y) : ℚ)⟩]) s) := by
  constructor
  · intro h
    refine ⟨roundToTick_bounds _, roundToTick_bounds _, ?_⟩
    rw [endDrawing_marker sel p0 p1 rest s h]
  · intro h hne
    refine ⟨roundToTick_bounds _, roundToTick_bounds _, roundToTick_bounds _,
      roundToTick_bounds _, ?_⟩
    rw [endDrawing_segment sel p0 p1 rest s h hne]
    rfl

/-- Witness for C1 at the marker drag (250,250)→(255,265) and the segment
drag (250,250)→(355,250). -/
theorem c1_amended_witness :
    ((-10 ≤ roundToTick (xToValue (((250 : ℚ) + 255) / 2))
        ∧ roundToTick (xToValue (((250 : ℚ) + 255) / 2)) ≤ 10)
      ∧ (-10 ≤ roundToTick (yToValue (((250 : ℚ) + 265) / 2))
        ∧ roundToTick (yToValue (((250 : ℚ) + 265) / 2)) ≤ 10)
      ∧ (endDrawing none [⟨250, 250⟩, ⟨255, 265⟩] initState).1
          = pushHistory (.emptyCircle
              ⟨(roundToTick (xToValue (((250 : ℚ) + 255) / 2)) : ℚ),
                (roundToTick (yToValue (((250 : ℚ) + 265) / 2)) : ℚ)⟩) initState)
    ∧ ((-10 ≤ roundToTick (xToValue (250 : ℚ))
        ∧ roundToTick (xToValue (250 : ℚ)) ≤ 10)
      ∧ (-10 ≤ roundToTick (yToValue (250 : ℚ))
        ∧ roundToTick (yToValue (250 : ℚ)) ≤ 10)
      ∧ (-10 ≤ roundToTick (xToValue (355 : ℚ))
        ∧ roundToTick (xToValue (355 : ℚ)) ≤ 10)
      ∧ (-10 ≤ roundToTick (yToValue (250 : ℚ))
        ∧ roundToTick (yToValue (250 : ℚ)) ≤ 10)
      ∧ (endDrawing none [⟨250, 250⟩, ⟨355, 250⟩] initState).1
          = pushHistory (.segment ((none : Option Shape).getD .line)
              [⟨valueToX (roundToTick (xToValue (250 : ℚ)) : ℚ),
                 valueToY (roundToTick (yToValue (250 : ℚ)) : ℚ)⟩,
               ⟨valueToX (roundToTick (xToValue (355 : ℚ)) : ℚ),
                 valueToY (roundToTick (yToValue (250 : ℚ)) : ℚ)⟩]) initState) :=
  ⟨(c1_amended none ⟨250, 250⟩ ⟨255, 265⟩ [] initState).1 markerCond_255_265,
   (c1_amended none ⟨250, 250⟩ ⟨355, 250⟩ [] initState).2 not_markerCond_355_250
     snapPt_ne_355⟩

/-! ### C2: marker classification scenario -/

/-- C2 (counterexample): the drag (250,250)→(255,270) has spanX = 5 and
spanY = 20, yet the classifier commits a Segment action (its overall length
√425 ≈ 20.6 px is not below POINT_MAX_SPAN = 18.9 px), not an EmptyCircle. -/
theorem c2_counterexample :
    (endDrawing none [⟨250, 250⟩, ⟨255, 270⟩] initState).1.history
        = [.segment .line [⟨250, 250⟩, ⟨250, 271⟩]]
    ∧ (Action.segment .line [⟨250, 250⟩, ⟨250, 271⟩]).isEmptyCircle = false := by
  refine ⟨?_, rfl⟩
  rw [show ([⟨250, 250⟩, ⟨255, 270⟩] : List Pt)
      = (⟨250, 250⟩ : Pt) :: (⟨255, 270⟩ : Pt) :: [] from rfl,
    endDrawing_segment none _ _ _ _ not_markerCond_255_270 snapPt_ne_270,
    snapPt_250_250, snapPt_255_270]
  rfl

/-- C2 (amended): a drag with pixel spans (spanX=5, spanY=20) exceeds
POINT_MAX_SPAN in overall length and commits a Segment, not an EmptyCircle;
a drag with spans (spanX=5, spanY=15), whose length is below POINT_MAX_SPAN
and whose spanY is at least POINT_MIN_VERTICAL, commits an EmptyCircle. -/
theorem c2_amended :
    (endDrawing none [⟨250, 250⟩, ⟨255, 270⟩] initState).1.history
        = [.segment .line [⟨250, 250⟩, ⟨250, 271⟩]]
    ∧ (endDrawing none [⟨250, 250⟩, ⟨255, 265⟩] initState).1.history
        = [.emptyCircle ⟨0, 0⟩] := by
  constructor
  · rw [show ([⟨250, 250⟩, ⟨255, 270⟩] : List Pt)
        = (⟨250, 250⟩ : Pt) :: (⟨255, 270⟩ : Pt) :: [] from rfl,
      endDrawing_segment none _ _ _ _ not_markerCond_255_270 snapPt_ne_270,
      snapPt_250_250, snapPt_255_270]
    rfl
  · rw [show ([⟨250, 250⟩, ⟨255, 265⟩] : List Pt)
        = (⟨250, 250⟩ : Pt) :: (⟨255, 265⟩ : Pt) :: [] from rfl,
      endDrawing_marker none _ _ _ _ markerCond_255_265]
    have hx : roundToTick (xToValue (((250 : ℚ) + 255) / 2)) = 0 := by
      rw [xToValue_eq]; apply roundToTick_eq <;> norm_num [MIN, MAX]
    have hy : roundToTick (yToValue (((250 : ℚ) + 265) / 2)) = 0 := by
      rw [yToValue_eq]; apply roundToTick_eq <;> norm_num [MIN, MAX]
    simp only at hx hy ⊢
    rw [hx, hy]
    rfl

/-! ### C6: degenerate gestures commit nothing -/

/-- C6: a trace with fewer than two recorded points (pointer down and up at
the same pixel records a single point, since `moveDrawing` drops a move to
the last recorded pixel), and a segment-classified drag whose two snapped
endpoints coincide, each leave the history sequence and cursor unchanged:
zero actions are appended. -/
theorem c6_degenerate_drop (sel : Option Shape) (s : HistState)
    (prev : List Pt) (p0 p1 : Pt) (rest : List Pt) :
    (prev.length < 2 → endDrawing sel prev s = (s, prev))
    ∧ moveDrawing p0 (startDrawing p0) = [p0]
    ∧ (¬ markerCond p0 p1 → snapPt p0 = snapPt p1 →
        endDrawing sel (p0 :: p1 :: rest) s = (s, [snapPt p0])) := by
  refine ⟨?_, ?_, endDrawing_degenerate sel p0 p1 rest s⟩
  · intro h
    cases prev with
    | nil => rfl
    | cons a t =>
        cases t with
        | nil => rfl
        | cons b t' => exact absurd h (by simp)
  · simp [moveDrawing, startDrawing]

/-- Witness for C6: a one-point trace at (250,250), and the degenerate
segment drag (250,250)→(254,253) whose endpoints both snap to (0,0). -/
theorem c6_degenerate_drop_witness :
    (endDrawing none [⟨250, 250⟩] initState = (initState, [⟨250, 250⟩]))
    ∧ moveDrawing ⟨250, 250⟩ (startDrawing ⟨250, 250⟩) = [⟨250, 250⟩]
    ∧ endDrawing none [⟨250, 250⟩, ⟨254, 253⟩] initState
        = (initState, [snapPt ⟨250, 250⟩]) :=
  ⟨(c6_degenerate_drop none initState [⟨250, 250⟩] ⟨250, 250⟩ ⟨254, 253⟩
      []).1 (by simp),
   (c6_degenerate_drop none initState [⟨250, 250⟩] ⟨250, 250⟩ ⟨254, 253⟩
      []).2.1,
   (c6_degenerate_drop none initState [⟨250, 250⟩] ⟨250, 250⟩ ⟨254, 253⟩
      []).2.2 not_markerCond_254_253 snapPt_eq_254_253⟩

/-! ### C10: committed segment shape defaults to line -/

/-- C10: with no shape tool selected, a segment-classified drag is committed
with shape 'line'; for every tool state the committed shape is
`selectedShape || 'line'`, always one of line, exponential, or parabola. -/
theorem c10_shape_fallback (s : HistState) (p0 p1 : Pt) (rest : List Pt)
    (hnm : ¬ markerCond p0 p1) (hne : snapPt p0 ≠ snapPt p1) :
    ((endDrawing none (p0 :: p1 :: rest) s).1.history
        = s.history.take s.index ++ [.segment .line [snapPt p0, snapPt p1]])
    ∧ ∀ sel : Option Shape,
        (endDrawing sel (p0 :: p1 :: rest) s).1.history
          = s.history.take s.index
              ++ [.segment (sel.getD .line) [snapPt p0, snapPt p1]]
        ∧ (sel.getD .line = .line ∨ sel.getD .line = .exponential
            ∨ sel.getD .line = .parabola) := by
  constructor
  · rw [endDrawing_segment none p0 p1 rest s hnm hne]; rfl
  · intro sel
    refine ⟨by rw [endDrawing_segment sel p0 p1 rest s hnm hne]; rfl, ?_⟩
    cases sel with
    | none => exact Or.inl rfl
    | some sh =>
        cases sh with
        | line => exact Or.inl rfl
        | exponential => exact Or.inr (Or.inl rfl)
        | parabola => exact Or.inr (Or.inr rfl)

/-- Witness for C10 at the drag (250,250)→(355,250), with the tool toggled
off and with the parabola tool selected. -/
theorem c10_shape_fallback_witness :
    ((endDrawing none [⟨250, 250⟩, ⟨355, 250⟩] initState).1.history
        = initState.history.take initState.index
            ++ [.segment .line [snapPt ⟨250, 250⟩, snapPt ⟨355, 250⟩]])
    ∧ ((endDrawing (some .parabola) [⟨250, 250⟩, ⟨355, 250⟩] initState).1.history
        = initState.history.take initState.index
            ++ [.segment ((some Shape.parabola).getD .line)
                  [snapPt ⟨250, 250⟩, snapPt ⟨355, 250⟩]])
    ∧ ((some Shape.parabola).getD .line = .line
        ∨ (some Shape.parabola).getD .line = .exponential
        ∨ (some Shape.parabola).getD .line = .parabola) :=
  ⟨(c10_shape_fallback initState ⟨250, 250⟩ ⟨355, 250⟩ []
      not_markerCond_355_250 snapPt_ne_355).1,
   ((c10_shape_fallback initState ⟨250, 250⟩ ⟨355, 250⟩ []
      not_markerCond_355_250 snapPt_ne_355).2 (some .parabola)).1,
   ((c10_shape_fallback initState ⟨250, 250⟩ ⟨355, 250⟩ []
      not_markerCond_355_250 snapPt_ne_355).2 (some .parabola)).2⟩

end TwoVarGraph
